import Mathlib

/-!
Verification of the ChatKitPanel component logic of the agentkit-builder
repository. The definitions below are shallow embeddings of the TypeScript
source: the JSON value model and parser embed the JSON.parse runtime
primitive used by the component, and the panel definitions embed the
functions of components/ChatKitPanel.tsx (two source variants).
-/

set_option maxHeartbeats 1000000

/-- A JSON value as produced by JSON.parse. Numbers are kept exactly as
mantissa times a power of ten, which is faithful for every observation the
embedded code makes of a number (type tests and truthiness). -/
inductive JsonValue where
  | null
  | bool (b : Bool)
  | num (mantissa : Int) (exponent : Int)
  | str (s : String)
  | arr (elems : List JsonValue)
  | obj (fields : List (String × JsonValue))
deriving Repr

/-- Last-match field lookup: JSON.parse resolves duplicate keys by letting
the later occurrence win, so lookup returns the last binding of the key. -/
def lookupField (fields : List (String × JsonValue)) (key : String) : Option JsonValue :=
  match fields with
  | [] => none
  | (k, v) :: rest =>
    match lookupField rest key with
    | some w => some w
    | none => if k == key then some v else none

/-- JavaScript property read for the string keys the code uses: defined on
objects, undefined on every other JSON value. -/
def getMember (v : JsonValue) (key : String) : Option JsonValue :=
  match v with
  | .obj fields => lookupField fields key
  | _ => none

/-- The JavaScript in-operator for the string keys the code uses: true only
for a present object field. -/
def hasMember (v : JsonValue) (key : String) : Bool :=
  match v with
  | .obj fields => (lookupField fields key).isSome
  | _ => false

/-- JavaScript truthiness of a JSON value. -/
def jsTruthy (v : JsonValue) : Bool :=
  match v with
  | .null => false
  | .bool b => b
  | .num m _ => m != 0
  | .str s => s != ""
  | .arr _ => true
  | .obj _ => true

/-- The JavaScript test typeof v styled as object: true for objects, arrays
and null. -/
def jsTypeofObject (v : JsonValue) : Bool :=
  match v with
  | .obj _ => true
  | .arr _ => true
  | .null => true
  | _ => false

/-- The JavaScript test typeof v styled as string, on a possibly undefined
value, extracting the string on success. -/
def asJsString (v : Option JsonValue) : Option String :=
  match v with
  | some (.str s) => some s
  | _ => none

/-! ### A JSON parser modelling JSON.parse

JSON.parse either returns the parsed value or throws; the model returns an
Option. The grammar follows RFC 8259: optional minus, no leading zeros,
mandatory fraction and exponent digits, the four whitespace characters, and
string escapes. -/

def isJsonWs (c : Char) : Bool := [' ', '\t', '\n', '\r'].contains c

def dropWs (cs : List Char) : List Char := cs.dropWhile isJsonWs

def isDigitChar (c : Char) : Bool := c.isDigit

def digitVal (c : Char) : Nat := c.toNat - '0'.toNat

def digitsToNat (ds : List Char) : Nat :=
  ds.foldl (fun acc c => acc * 10 + digitVal c) 0

/-- Value of one hexadecimal digit, with both letter cases. -/
def hexDigitVal (c : Char) : Option Nat :=
  if isDigitChar c then some (digitVal c)
  else if 'a' ≤ c && c ≤ 'f' then some (c.toNat - 87)
  else if 'A' ≤ c && c ≤ 'F' then some (c.toNat - 55)
  else none

/-- Exponent part of a JSON number, after the e marker is consumed. -/
def parseExponent (cs : List Char) : Option (Int × List Char) :=
  let signAndRest : Bool × List Char :=
    match cs with
    | '+' :: r => (false, r)
    | '-' :: r => (true, r)
    | _ => (false, cs)
  match signAndRest.2.span isDigitChar with
  | ([], _) => none
  | (ds, r) =>
    some ((if signAndRest.1 then -(digitsToNat ds : Int) else (digitsToNat ds : Int)), r)

/-- A JSON number literal, returned as exact mantissa and decimal exponent. -/
def parseNumber (cs : List Char) : Option (JsonValue × List Char) :=
  let negAndRest : Bool × List Char :=
    match cs with
    | '-' :: r => (true, r)
    | _ => (false, cs)
  match negAndRest.2 with
  | [] => none
  | c :: rest =>
    if !(isDigitChar c) then none
    else
      let intAndRest : List Char × List Char :=
        if c == '0' then ([c], rest)
        else
          let (ds, r) := rest.span isDigitChar
          (c :: ds, r)
      let fracParsed : Option (List Char × List Char) :=
        match intAndRest.2 with
        | '.' :: r =>
          match r.span isDigitChar with
          | ([], _) => none
          | (ds, r2) => some (ds, r2)
        | other => some ([], other)
      match fracParsed with
      | none => none
      | some (fracDigits, afterFrac) =>
        let expParsed : Option (Int × List Char) :=
          match afterFrac with
          | 'e' :: r => parseExponent r
          | 'E' :: r => parseExponent r
          | other => some (0, other)
        match expParsed with
        | none => none
        | some (expVal, afterExp) =>
          let mantNat : Nat := digitsToNat (intAndRest.1 ++ fracDigits)
          let m : Int := if negAndRest.1 then -(mantNat : Int) else (mantNat : Int)
          some (.num m (expVal - fracDigits.length), afterExp)

/-- Body of a JSON string literal after the opening quote, with escapes. -/
def parseStringBody : Nat → List Char → List Char → Option (String × List Char)
  | 0, _, _ => none
  | _ + 1, [], _ => none
  | fuel + 1, c :: rest, acc =>
    if c == '"' then some (String.mk acc.reverse, rest)
    else if c == '\\' then
      match rest with
      | [] => none
      | e :: rest2 =>
        if e == '"' then parseStringBody fuel rest2 ('"' :: acc)
        else if e == '\\' then parseStringBody fuel rest2 ('\\' :: acc)
        else if e == '/' then parseStringBody fuel rest2 ('/' :: acc)
        else if e == 'b' then parseStringBody fuel rest2 ('\x08' :: acc)
        else if e == 'f' then parseStringBody fuel rest2 ('\x0c' :: acc)
        else if e == 'n' then parseStringBody fuel rest2 ('\n' :: acc)
        else if e == 'r' then parseStringBody fuel rest2 ('\r' :: acc)
        else if e == 't' then parseStringBody fuel rest2 ('\t' :: acc)
        else if e == 'u' then
          match rest2 with
          | h1 :: h2 :: h3 :: h4 :: rest3 =>
            match hexDigitVal h1, hexDigitVal h2, hexDigitVal h3, hexDigitVal h4 with
            | some a, some b, some c2, some d =>
              parseStringBody fuel rest3 (Char.ofNat (((a * 16 + b) * 16 + c2) * 16 + d) :: acc)
            | _, _, _, _ => none
          | _ => none
        else none
    else if c.toNat < 32 then none
    else parseStringBody fuel rest (c :: acc)

mutual

/-- A JSON value with leading whitespace allowed. Fuel bounds the nesting. -/
def parseValue : Nat → List Char → Option (JsonValue × List Char)
  | 0, _ => none
  | fuel + 1, cs =>
    let cs2 := dropWs cs
    match cs2 with
    | 'n' :: 'u' :: 'l' :: 'l' :: rest => some (.null, rest)
    | 't' :: 'r' :: 'u' :: 'e' :: rest => some (.bool true, rest)
    | 'f' :: 'a' :: 'l' :: 's' :: 'e' :: rest => some (.bool false, rest)
    | '"' :: rest =>
      (parseStringBody (rest.length + 1) rest []).map (fun p => (.str p.1, p.2))
    | '[' :: rest =>
      let rest2 := dropWs rest
      match rest2 with
      | ']' :: r2 => some (.arr [], r2)
      | _ => (parseElems fuel rest2).map (fun p => (.arr p.1, p.2))
    | '{' :: rest =>
      let rest2 := dropWs rest
      match rest2 with
      | '}' :: r2 => some (.obj [], r2)
      | _ => (parseFields fuel rest2).map (fun p => (.obj p.1, p.2))
    | other => parseNumber other

/-- One or more array elements followed by the closing bracket. -/
def parseElems : Nat → List Char → Option (List JsonValue × List Char)
  | 0, _ => none
  | fuel + 1, cs => do
    let (v, r) ← parseValue fuel cs
    match dropWs r with
    | ',' :: r2 => do
      let (vs, r3) ← parseElems fuel r2
      pure (v :: vs, r3)
    | ']' :: r2 => pure ([v], r2)
    | _ => none

/-- One or more object members followed by the closing brace. -/
def parseFields : Nat → List Char → Option (List (String × JsonValue) × List Char)
  | 0, _ => none
  | fuel + 1, cs =>
    match dropWs cs with
    | '"' :: rest => do
      let (k, r) ← parseStringBody (rest.length + 1) rest []
      match dropWs r with
      | ':' :: r2 => do
        let (v, r3) ← parseValue fuel r2
        match dropWs r3 with
        | ',' :: r4 => do
          let (fs, r5) ← parseFields fuel r4
          pure ((k, v) :: fs, r5)
        | '}' :: r4 => pure ([(k, v)], r4)
        | _ => none
      | _ => none
    | _ => none

end

/-- JSON.parse: parse a complete text, allowing trailing whitespace, and
fail on anything left over. The fuel is generous for every input. -/
def parseJson (s : String) : Option JsonValue :=
  match parseValue (2 * s.length + 4) s.data with
  | some (v, rest) =>
    match dropWs rest with
    | [] => some v
    | _ => none
  | none => none

/-! ### extractErrorDetail (components/ChatKitPanel.tsx)

Direct transcription of the error-shape probing function: the payload is
the parsed response body (undefined when called with no payload); each
branch mirrors one typeof or in test of the source. -/

/-- The second source test on an error-shaped value: the value is truthy,
of object type, has a message member, and that member is a string. -/
def errorMessageOf (v : Option JsonValue) : Option String :=
  match v with
  | some e =>
    if jsTruthy e && jsTypeofObject e && hasMember e "message" then
      asJsString (getMember e "message")
    else none
  | none => none

/-- The details branch of the source: a truthy object-typed details value
with an error member, whose error is either a string or an object carrying
a string message. -/
def detailsErrorOf (v : Option JsonValue) : Option String :=
  match v with
  | some d =>
    if jsTruthy d && jsTypeofObject d && hasMember d "error" then
      match asJsString (getMember d "error") with
      | some s => some s
      | none => errorMessageOf (getMember d "error")
    else none
  | none => none

/-- extractErrorDetail from components/ChatKitPanel.tsx: probe the parsed
error payload for a human-readable message, falling back to the HTTP
status text. -/
def extractErrorDetail (payload : Option JsonValue) (fallback : String) : String :=
  match payload with
  | none => fallback
  | some p =>
    if jsTruthy p = false then fallback
    else
      match asJsString (getMember p "error") with
      | some s => s
      | none =>
        match errorMessageOf (getMember p "error") with
        | some m => m
        | none =>
          match asJsString (getMember p "details") with
          | some s => s
          | none =>
            match detailsErrorOf (getMember p "details") with
            | some s => s
            | none =>
              match asJsString (getMember p "message") with
              | some s => s
              | none => fallback

/-! ### The ordered-strategy reading of the spec

The spec describes the same computation as an ordered list of extraction
strategies tried in sequence, returning the first successful match. The
following definitions follow the words of the spec, not the source, and
are later proved extensionally equal to extractErrorDetail. -/

/-- First successful match among an ordered list of attempts. -/
def firstSome (attempts : List (Option String)) : Option String :=
  match attempts with
  | [] => none
  | o :: rest =>
    match o with
    | some s => some s
    | none => firstSome rest

/-- The six extraction strategies of the spec, in their stated order: a
top-level error string, the error object message string, a details string,
a details.error string, a details.error.message string, then a top-level
message string. -/
def errorDetailStrategies (p : JsonValue) : List (Option String) :=
  [ asJsString (getMember p "error"),
  asJsString ((getMember p "error").bind (fun e => getMember e "message")),
  asJsString (getMember p "details"),
  asJsString ((getMember p "details").bind (fun d => getMember d "error")),
  asJsString ((getMember p "details").bind (fun d =>
      (getMember d "error").bind (fun e => getMember e "message"))),
  asJsString (getMember p "message") ]

/-- The spec-worded extraction: try the ordered strategies on the parsed
body and return the first successful match, otherwise the fallback. -/
def extractErrorDetailSpec (payload : Option JsonValue) (fallback : String) : String :=
  match payload with
  | none => fallback
  | some p => (firstSome (errorDetailStrategies p)).getD fallback

/-! ### getClientSecret (components/ChatKitPanel.tsx)

The session-bootstrap call. The model takes the configured workflow
identifier, whether a current secret was passed in, the HTTP response the
fetch settles with, and the panel state at call time; it is the behavior
of a mounted component (the isMountedRef guard is true). -/

/-- An HTTP response as observed by the code: status, statusText and the
raw body text. -/
structure HttpResponse where
  status : Nat
  statusText : String
  body : String
deriving Repr

/-- The fetch Response ok flag: status in the 2xx range. -/
def responseOk (status : Nat) : Bool := 200 ≤ status && status ≤ 299

/-- The source initializes data to an empty object and replaces it with
JSON.parse of the raw body only when the body is non-empty and parses;
a parse failure is caught and logged, leaving the empty object. -/
def parseBodyOrEmpty (raw : String) : JsonValue :=
  if raw == "" then .obj []
  else
    match parseJson raw with
    | some v => v
    | none => .obj []

/-- Outcome of the getClientSecret promise: resolution with the credential
value, or rejection with the thrown error message. -/
inductive SecretResult where
  | success (value : JsonValue)
  | failure (message : String)
deriving Repr

/-- The fixed unconfigured-workflow message of the source. -/
def workflowConfigMessage : String :=
  "Set NEXT_PUBLIC_CHATKIT_WORKFLOW_ID in your .env.local file."

/-- The fixed missing-credential message of the source. -/
def missingSecretMessage : String := "Missing client secret in response"

/-- The JavaScript startsWith test, as a structurally computable
character-list comparison. -/
def strStartsWith (s pre : String) : Bool := pre.data.isPrefixOf s.data

/-- isWorkflowConfigured: the workflow id is truthy and does not start
with the placeholder literal. -/
def isWorkflowConfigured (workflowId : String) : Bool :=
  (workflowId != "") && !(strStartsWith workflowId "wf_replace")

/-- What getClientSecret resolves to or throws once the fetch settles. -/
def secretResultOf (resp : HttpResponse) : SecretResult :=
  let data := parseBodyOrEmpty resp.body
  if !(responseOk resp.status) then
    .failure (extractErrorDetail (some data) resp.statusText)
  else
    match getMember data "client_secret" with
    | some v => if jsTruthy v then .success v else .failure missingSecretMessage
    | none => .failure missingSecretMessage

/-! ### Panel state (components/ChatKitPanel.tsx) -/

/-- The error-state record of the panel. -/
structure ErrorState where
  script : Option String
  session : Option String
  integration : Option String
  retryable : Bool
deriving Repr, DecidableEq

/-- createInitialErrors from the source. -/
def createInitialErrors : ErrorState :=
  { script := none, session := none, integration := none, retryable := false }

/-- The script load status state. -/
inductive ScriptStatus where
  | pending
  | ready
  | error
deriving Repr, DecidableEq

/-- The mutable state of one mounted ChatKitPanel instance. -/
structure PanelState where
  errors : ErrorState
  isInitializingSession : Bool
  scriptStatus : ScriptStatus
  widgetInstanceKey : Nat
  processedFacts : List String
deriving Repr, DecidableEq

/-- The state of a freshly mounted panel: loading, no errors, script
status ready exactly when the custom element is already registered. -/
def initialPanelState (elementRegistered : Bool) : PanelState :=
  { errors := createInitialErrors,
    isInitializingSession := true,
    scriptStatus := if elementRegistered then .ready else .pending,
    widgetInstanceKey := 0,
    processedFacts := [] }

/-- handleLoaded: mark the script ready and clear the script error. -/
def handleLoaded (s : PanelState) : PanelState :=
  { s with
      scriptStatus := .ready,
      errors := { s.errors with script := none } }

/-- handleError: mark the script failed, record the event detail prefixed
by the source with Error: , force retryable off, stop the loader. -/
def handleError (detail : String) (s : PanelState) : PanelState :=
  { s with
      scriptStatus := .error,
      errors := { s.errors with script := some ("Error: " ++ detail), retryable := false },
      isInitializingSession := false }

/-- The fixed diagnostic detail of the synthesized timeout failure event. -/
def scriptTimeoutDetail : String :=
  "ChatKit web component is unavailable. Verify that the script URL is reachable."

/-- The unconfigured-workflow effect and the matching guard inside
getClientSecret: set the fixed session error, not retryable, stop the
loader. -/
def setUnconfiguredSessionError (s : PanelState) : PanelState :=
  { s with
      errors := { s.errors with session := some workflowConfigMessage, retryable := false },
      isInitializingSession := false }

/-- handleResetChat: clear the dedup set, recompute script readiness from
the current element registration, restart the loader, reset every error
field, and remount the widget by bumping the instance key. -/
def handleResetChat (elementRegistered : Bool) (s : PanelState) : PanelState :=
  { s with
      processedFacts := [],
      scriptStatus := if elementRegistered then .ready else .pending,
      isInitializingSession := true,
      errors := createInitialErrors,
      widgetInstanceKey := s.widgetInstanceKey + 1 }

/-- The state updates getClientSecret performs before the fetch: show the
loader when no current secret was passed, clear session and integration
errors, force retryable off. -/
def secretRequestStart (hasCurrentSecret : Bool) (s : PanelState) : PanelState :=
  { s with
    isInitializingSession := if hasCurrentSecret then s.isInitializingSession else true,
    errors := { s.errors with session := none, integration := none, retryable := false } }

/-- The finally clause: the loader clears when no current secret was
passed in. -/
def applyFinally (hasCurrentSecret : Bool) (s : PanelState) : PanelState :=
  if hasCurrentSecret then s else { s with isInitializingSession := false }

/-- The state updates after the fetch settles: on any throw the catch
records the message as the session error with retryable off; on success
session and integration errors are cleared; the finally clause runs in
both cases. -/
def secretResponseUpdate (hasCurrentSecret : Bool) (resp : HttpResponse) (s : PanelState) :
    PanelState :=
  applyFinally hasCurrentSecret
    (match secretResultOf resp with
     | .success _ => { s with errors := { s.errors with session := none, integration := none } }
     | .failure msg =>
       { s with errors := { s.errors with session := some msg, retryable := false } })

/-- The full observable behavior of one getClientSecret call. -/
structure GcsTrace where
  fetchPerformed : Bool
  result : SecretResult
  finalState : PanelState
deriving Repr

/-- getClientSecret from components/ChatKitPanel.tsx: guard on the
configured workflow id without fetching, otherwise fetch and settle. -/
def getClientSecret (workflowId : String) (hasCurrentSecret : Bool) (resp : HttpResponse)
    (s : PanelState) : GcsTrace :=
  if !(isWorkflowConfigured workflowId) then
    { fetchPerformed := false,
      result := .failure workflowConfigMessage,
      finalState := setUnconfiguredSessionError s }
  else
    { fetchPerformed := true,
      result := secretResultOf resp,
      finalState :=
        secretResponseUpdate hasCurrentSecret resp (secretRequestStart hasCurrentSecret s) }

/-! ### Client tool invocations (components/ChatKitPanel.tsx)

The onClientTool callback handles the switch_theme and record_fact
invocations; record_fact deduplicates on the processedFacts set. -/

/-- The two-valued color scheme of the host page. -/
inductive ColorScheme where
  | light
  | dark
deriving Repr, DecidableEq

/-- The widget action relayed to the host for a recorded fact. -/
structure FactAction where
  type : String
  factId : String
  factText : String
deriving Repr, DecidableEq

/-- Modelled from the spec: the JavaScript String() rendering of a JSON
number, as an exact decimal. The exponent notation JavaScript switches to
at extreme magnitudes is not modelled; no embedded code path observes it. -/
def jsNumToString (m : Int) (e : Int) : String :=
  if m = 0 then "0"
  else
    let sign := if m < 0 then "-" else ""
    let ds := (toString m.natAbs).data
    if 0 ≤ e then
      sign ++ String.mk ds ++ String.mk (List.replicate e.toNat '0')
    else
      let k := (-e).toNat
      let whole := if ds.length ≤ k then ['0'] else ds.take (ds.length - k)
      let fracRaw :=
        if ds.length ≤ k then List.replicate (k - ds.length) '0' ++ ds
        else ds.drop (ds.length - k)
      let frac := (fracRaw.reverse.dropWhile (fun c => c == '0')).reverse
      if frac.isEmpty then sign ++ String.mk whole
      else sign ++ String.mk whole ++ "." ++ String.mk frac

/-- Modelled from the spec: the JavaScript String() conversion of a JSON
value, as applied by the source to tool parameters. -/
def jsToString : JsonValue → String
  | .null => "null"
  | .bool true => "true"
  | .bool false => "false"
  | .str s => s
  | .num m e => jsNumToString m e
  | .obj _ => "[object Object]"
  | .arr xs =>
    String.intercalate "," (xs.attach.map (fun x =>
      match x with
      | ⟨.null, _⟩ => ""
      | ⟨v, _⟩ => jsToString v))

/-- The source pattern String(params.key with nullish default of the empty
string): undefined and null become the empty string, any other value its
String() conversion. -/
def jsParamString (v : Option JsonValue) : String :=
  match v with
  | none => ""
  | some .null => ""
  | some w => jsToString w

/-- JavaScript whitespace as matched by the backslash-s character class,
restricted to the characters the model represents. -/
def isJsSpace (c : Char) : Bool :=
  [' ', '\t', '\n', '\r', '\x0b', '\x0c', '\u00A0'].contains c

/-- Replace every whitespace character by one space. -/
def collapseWs (cs : List Char) : List Char :=
  cs.map (fun c => if isJsSpace c then ' ' else c)

/-- Merge consecutive spaces into one, so that the composition with
collapseWs replaces every whitespace run by a single space. -/
def squeezeSpaces (cs : List Char) : List Char :=
  match cs with
  | [] => []
  | c :: rest =>
    match squeezeSpaces rest with
    | [] => [c]
    | d :: ds => if c == ' ' && d == ' ' then d :: ds else c :: d :: ds

/-- Remove leading and trailing spaces. -/
def trimSpaces (cs : List Char) : List Char :=
  ((cs.dropWhile (fun c => c == ' ')).reverse.dropWhile (fun c => c == ' ')).reverse

/-- The fact text normalization of the source: replace every whitespace
run by one space, then trim. -/
def normalizeFactText (text : String) : String :=
  String.mk (trimSpaces (squeezeSpaces (collapseWs text.data)))

/-- The outcome of one onClientTool invocation: the acknowledgment, the
updated dedup set, the widget action relayed to the host if any, and the
theme switch requested if any. -/
structure ClientToolResult where
  success : Bool
  processedFacts : List String
  widgetAction : Option FactAction
  themeRequest : Option ColorScheme
deriving Repr, DecidableEq

/-- onClientTool from components/ChatKitPanel.tsx. -/
def onClientTool (processedFacts : List String) (name : String)
    (params : List (String × JsonValue)) : ClientToolResult :=
  if name == "switch_theme" then
    match lookupField params "theme" with
    | some (.str "light") =>
      { success := true, processedFacts := processedFacts, widgetAction := none,
        themeRequest := some .light }
    | some (.str "dark") =>
      { success := true, processedFacts := processedFacts, widgetAction := none,
        themeRequest := some .dark }
    | _ =>
      { success := false, processedFacts := processedFacts, widgetAction := none,
        themeRequest := none }
  else if name == "record_fact" then
    let id := jsParamString (lookupField params "fact_id")
    let text := jsParamString (lookupField params "fact_text")
    if id == "" || processedFacts.contains id then
      { success := true, processedFacts := processedFacts, widgetAction := none,
        themeRequest := none }
    else
      { success := true, processedFacts := id :: processedFacts,
        widgetAction := some { type := "save", factId := id, factText := normalizeFactText text },
        themeRequest := none }
  else
    { success := false, processedFacts := processedFacts, widgetAction := none,
      themeRequest := none }

/-- onThreadChange from components/ChatKitPanel.tsx: clear the dedup set. -/
def onThreadChange (processedFacts : List String) : List String :=
  match processedFacts with
  | _ => []

/-! ### Error precedence (components/ChatKitPanel.tsx) -/

/-- activeError: the session error, or else the integration error. -/
def activeError (e : ErrorState) : Option String :=
  match e.session with
  | some m => some m
  | none => e.integration

/-- blockingError: the script error takes precedence over activeError. -/
def blockingError (e : ErrorState) : Option String :=
  match e.script with
  | some m => some m
  | none => activeError e

/-- The retry affordance handed to the error overlay: a reset handler is
attached exactly when a blocking error is present and retryable is set. -/
def onRetryAttached (s : PanelState) : Bool :=
  (blockingError s.errors).isSome && s.errors.retryable

/-! ### The event-step machine of one mounted panel

Each event is one state-updating occurrence the source can perform on a
mounted panel: the script lifecycle handlers, the unconfigured-workflow
effect, the reset action, the two phases of a getClientSecret call (its
pre-fetch updates and the updates once the fetch settles), the widget
callbacks, and thread changes. A timeout is armed only while the script
status is pending and is cleared by the effect cleanup as soon as the
status changes, and its handler fires only when the custom element is
still unregistered; the scriptTimeout event carries that registration
flag. -/
inductive PanelEvent where
  | scriptLoaded
  | scriptTimeout (elementRegistered : Bool)
  | workflowUnconfigured
  | resetChat (elementRegistered : Bool)
  | secretUnconfigured
  | secretStart (hasCurrentSecret : Bool)
  | secretSettled (hasCurrentSecret : Bool) (resp : HttpResponse)
  | responseStart
  | clientTool (name : String) (params : List (String × JsonValue))
  | threadChange

/-- The state transition each event performs. -/
def step (s : PanelState) (e : PanelEvent) : PanelState :=
  match e with
  | .scriptLoaded => handleLoaded s
  | .scriptTimeout elementRegistered =>
    if s.scriptStatus == .pending && !elementRegistered then
      handleError scriptTimeoutDetail s
    else s
  | .workflowUnconfigured => setUnconfiguredSessionError s
  | .resetChat elementRegistered => handleResetChat elementRegistered s
  | .secretUnconfigured => setUnconfiguredSessionError s
  | .secretStart hasCurrentSecret => secretRequestStart hasCurrentSecret s
  | .secretSettled hasCurrentSecret resp => secretResponseUpdate hasCurrentSecret resp s
  | .responseStart =>
    { s with errors := { s.errors with integration := none, retryable := false } }
  | .clientTool name params =>
    { s with processedFacts := (onClientTool s.processedFacts name params).processedFacts }
  | .threadChange => { s with processedFacts := onThreadChange s.processedFacts }

/-- The states a mounted panel can reach from its initial state. -/
inductive ReachablePanel : PanelState → Prop where
  | init (elementRegistered : Bool) : ReachablePanel (initialPanelState elementRegistered)
  | next {s : PanelState} (e : PanelEvent) :
      ReachablePanel s → ReachablePanel (step s e)

/-! ### Concrete response bodies named by the spec -/

/-- The JSON body with a nested error message object. -/
def quotaBody : String := "\x7b\"error\":\x7b\"message\":\"quota exceeded\"\x7d\x7d"

/-- The JSON body with a details object holding an error string. -/
def badWorkflowBody : String := "\x7b\"details\":\x7b\"error\":\"bad workflow\"\x7d\x7d"

/-- The JSON body carrying the credential. -/
def secretBody : String := "\x7b\"client_secret\":\"sk_abc\"\x7d"

/-- A JSON body whose credential field holds the empty string. -/
def emptySecretBody : String := "\x7b\"client_secret\":\"\"\x7d"

/-! ### The first source variant of ChatKitPanel

The repository carries two variants of components/ChatKitPanel.tsx. The
definitions below transcribe the behavioral functions of the first
variant; the definitions above transcribe the second. The shared JSON
runtime model (values, parsing, truthiness, member access) models the
JavaScript platform and is common to both. -/

namespace Variant1

/-- The message-object test of the first variant. -/
def errorMessageOf (v : Option JsonValue) : Option String :=
  match v with
  | some e =>
    if jsTruthy e && jsTypeofObject e && hasMember e "message" then
      asJsString (getMember e "message")
    else none
  | none => none

/-- The details branch of the first variant. -/
def detailsErrorOf (v : Option JsonValue) : Option String :=
  match v with
  | some d =>
    if jsTruthy d && jsTypeofObject d && hasMember d "error" then
      match asJsString (getMember d "error") with
      | some s => some s
      | none => errorMessageOf (getMember d "error")
    else none
  | none => none

/-- extractErrorDetail of the first variant. -/
def extractErrorDetail (payload : Option JsonValue) (fallback : String) : String :=
  match payload with
  | none => fallback
  | some p =>
    if jsTruthy p = false then fallback
    else
      match asJsString (getMember p "error") with
      | some s => s
      | none =>
        match errorMessageOf (getMember p "error") with
        | some m => m
        | none =>
          match asJsString (getMember p "details") with
          | some s => s
          | none =>
            match detailsErrorOf (getMember p "details") with
            | some s => s
            | none =>
              match asJsString (getMember p "message") with
              | some s => s
              | none => fallback

/-- isWorkflowConfigured of the first variant. -/
def isWorkflowConfigured (workflowId : String) : Bool :=
  (workflowId != "") && !(strStartsWith workflowId "wf_replace")

/-- createInitialErrors of the first variant. -/
def createInitialErrors : ErrorState :=
  { script := none, session := none, integration := none, retryable := false }

/-- The unconfigured-workflow update of the first variant. -/
def setUnconfiguredSessionError (s : PanelState) : PanelState :=
  { s with
      errors := { s.errors with
        session := some "Set NEXT_PUBLIC_CHATKIT_WORKFLOW_ID in your .env.local file.",
        retryable := false },
      isInitializingSession := false }

/-- handleResetChat of the first variant. -/
def handleResetChat (elementRegistered : Bool) (s : PanelState) : PanelState :=
  { s with
      processedFacts := [],
      scriptStatus := if elementRegistered then .ready else .pending,
      isInitializingSession := true,
      errors := createInitialErrors,
      widgetInstanceKey := s.widgetInstanceKey + 1 }

/-- The pre-fetch updates of the first variant. -/
def secretRequestStart (hasCurrentSecret : Bool) (s : PanelState) : PanelState :=
  { s with
    isInitializingSession := if hasCurrentSecret then s.isInitializingSession else true,
    errors := { s.errors with session := none, integration := none, retryable := false } }

/-- The finally clause of the first variant. -/
def applyFinally (hasCurrentSecret : Bool) (s : PanelState) : PanelState :=
  if hasCurrentSecret then s else { s with isInitializingSession := false }

/-- The settled result of the first variant. -/
def secretResultOf (resp : HttpResponse) : SecretResult :=
  let data := parseBodyOrEmpty resp.body
  if !(responseOk resp.status) then
    .failure (extractErrorDetail (some data) resp.statusText)
  else
    match getMember data "client_secret" with
    | some v =>
      if jsTruthy v then .success v
      else .failure "Missing client secret in response"
    | none => .failure "Missing client secret in response"

/-- The post-fetch updates of the first variant. -/
def secretResponseUpdate (hasCurrentSecret : Bool) (resp : HttpResponse) (s : PanelState) :
    PanelState :=
  applyFinally hasCurrentSecret
    (match secretResultOf resp with
     | .success _ => { s with errors := { s.errors with session := none, integration := none } }
     | .failure msg =>
       { s with errors := { s.errors with session := some msg, retryable := false } })

/-- getClientSecret of the first variant. -/
def getClientSecret (workflowId : String) (hasCurrentSecret : Bool) (resp : HttpResponse)
    (s : PanelState) : GcsTrace :=
  if !(isWorkflowConfigured workflowId) then
    { fetchPerformed := false,
      result := .failure "Set NEXT_PUBLIC_CHATKIT_WORKFLOW_ID in your .env.local file.",
      finalState := setUnconfiguredSessionError s }
  else
    { fetchPerformed := true,
      result := secretResultOf resp,
      finalState :=
        secretResponseUpdate hasCurrentSecret resp (secretRequestStart hasCurrentSecret s) }

/-- The fact text normalization of the first variant. -/
def normalizeFactText (text : String) : String :=
  String.mk (trimSpaces (squeezeSpaces (collapseWs text.data)))

/-- onClientTool of the first variant. -/
def onClientTool (processedFacts : List String) (name : String)
    (params : List (String × JsonValue)) : ClientToolResult :=
  if name == "switch_theme" then
    match lookupField params "theme" with
    | some (.str "light") =>
      { success := true, processedFacts := processedFacts, widgetAction := none,
        themeRequest := some .light }
    | some (.str "dark") =>
      { success := true, processedFacts := processedFacts, widgetAction := none,
        themeRequest := some .dark }
    | _ =>
      { success := false, processedFacts := processedFacts, widgetAction := none,
        themeRequest := none }
  else if name == "record_fact" then
    let id := jsParamString (lookupField params "fact_id")
    let text := jsParamString (lookupField params "fact_text")
    if id == "" || processedFacts.contains id then
      { success := true, processedFacts := processedFacts, widgetAction := none,
        themeRequest := none }
    else
      { success := true, processedFacts := id :: processedFacts,
        widgetAction := some { type := "save", factId := id, factText := normalizeFactText text },
        themeRequest := none }
  else
    { success := false, processedFacts := processedFacts, widgetAction := none,
      themeRequest := none }

/-- onThreadChange of the first variant. -/
def onThreadChange (processedFacts : List String) : List String :=
  match processedFacts with
  | _ => []

/-- activeError of the first variant. -/
def activeError (e : ErrorState) : Option String :=
  match e.session with
  | some m => some m
  | none => e.integration

/-- blockingError of the first variant. -/
def blockingError (e : ErrorState) : Option String :=
  match e.script with
  | some m => some m
  | none => activeError e

end Variant1

/-! ### Helper lemmas -/

theorem getMember_obj (fields : List (String × JsonValue)) (k : String) :
    getMember (.obj fields) k = lookupField fields k := rfl

theorem hasMember_obj (fields : List (String × JsonValue)) (k : String) :
    hasMember (.obj fields) k = (lookupField fields k).isSome := rfl

theorem errorMessageOf_eq_bind (v : Option JsonValue) :
    errorMessageOf v = asJsString (v.bind (fun e => getMember e "message")) := by
  cases v with
  | none => rfl
  | some e =>
    cases e with
    | null => rfl
    | bool b => cases b <;> rfl
    | num m x =>
      simp [errorMessageOf, jsTruthy, jsTypeofObject, asJsString, getMember]
    | str s =>
      simp [errorMessageOf, jsTruthy, jsTypeofObject, asJsString, getMember]
    | arr xs => rfl
    | obj fields =>
      simp only [errorMessageOf, jsTruthy, jsTypeofObject, hasMember, getMember,
        Option.some_bind, Bool.true_and]
      cases h : lookupField fields "message" with
      | none => simp [h, asJsString]
      | some w => simp [h]

theorem detailsErrorOf_eq_bind (v : Option JsonValue) :
    detailsErrorOf v =
      (match asJsString (v.bind (fun d => getMember d "error")) with
       | some s => some s
       | none =>
         asJsString (v.bind (fun d =>
           (getMember d "error").bind (fun e => getMember e "message")))) := by
  cases v with
  | none => rfl
  | some d =>
    cases d with
    | null => rfl
    | bool b => cases b <;> rfl
    | num m x =>
      simp [detailsErrorOf, jsTruthy, jsTypeofObject, asJsString, getMember]
    | str s =>
      simp [detailsErrorOf, jsTruthy, jsTypeofObject, asJsString, getMember]
    | arr xs => rfl
    | obj fields =>
      simp only [detailsErrorOf, jsTruthy, jsTypeofObject, hasMember_obj, getMember_obj,
        Option.some_bind, Bool.true_and]
      cases h : lookupField fields "error" with
      | none => simp [h, asJsString]
      | some e =>
        rw [errorMessageOf_eq_bind]
        simp only [h, Option.isSome_some, if_true, Option.some_bind]

theorem extractErrorDetail_eq_spec (payload : Option JsonValue) (fallback : String) :
    extractErrorDetail payload fallback = extractErrorDetailSpec payload fallback := by
  cases payload with
  | none => rfl
  | some p =>
    cases p with
    | null => rfl
    | bool b => cases b <;> rfl
    | num m x =>
      simp [extractErrorDetail, extractErrorDetailSpec, errorDetailStrategies, firstSome,
        getMember, asJsString, errorMessageOf, detailsErrorOf]
    | str s =>
      simp [extractErrorDetail, extractErrorDetailSpec, errorDetailStrategies, firstSome,
        getMember, asJsString, errorMessageOf, detailsErrorOf]
    | arr xs => rfl
    | obj fields =>
      rw [show extractErrorDetail (some (.obj fields)) fallback =
          (match asJsString (getMember (.obj fields) "error") with
           | some s => s
           | none =>
             match errorMessageOf (getMember (.obj fields) "error") with
             | some m => m
             | none =>
               match asJsString (getMember (.obj fields) "details") with
               | some s => s
               | none =>
                 match detailsErrorOf (getMember (.obj fields) "details") with
                 | some s => s
                 | none =>
                   match asJsString (getMember (.obj fields) "message") with
                   | some s => s
                   | none => fallback) from rfl]
      rw [errorMessageOf_eq_bind, detailsErrorOf_eq_bind]
      simp only [extractErrorDetailSpec, errorDetailStrategies, firstSome, getMember_obj,
        Option.some_bind]
      cases hA : asJsString (lookupField fields "error") with
      | some s => simp [hA]
      | none =>
        simp only [hA]
        cases hB : asJsString ((lookupField fields "error").bind (fun e => getMember e "message")) with
        | some s => simp [hB]
        | none =>
          simp only [hB]
          cases hC : asJsString (lookupField fields "details") with
          | some s => simp [hC]
          | none =>
            simp only [hC]
            cases hD : asJsString ((lookupField fields "details").bind (fun d => getMember d "error")) with
            | some s => simp [hD]
            | none =>
              simp only [hD]
              cases hE : asJsString ((lookupField fields "details").bind (fun d =>
                  (getMember d "error").bind (fun e => getMember e "message"))) with
              | some s => simp [hE]
              | none =>
                simp only [hE]
                cases hF : asJsString (lookupField fields "message") with
                | some s => simp [hF]
                | none => simp [hF]

theorem applyFinally_errors (b : Bool) (s : PanelState) :
    (applyFinally b s).errors = s.errors := by
  cases b <;> rfl

theorem retryable_false_of_reachable {s : PanelState} (h : ReachablePanel s) :
    s.errors.retryable = false := by
  induction h with
  | init r => rfl
  | next e h ih =>
    cases e with
    | scriptLoaded => simpa [step, handleLoaded] using ih
    | scriptTimeout r =>
      simp only [step]
      split
      · rfl
      · exact ih
    | workflowUnconfigured => rfl
    | resetChat r => rfl
    | secretUnconfigured => rfl
    | secretStart b => rfl
    | secretSettled b resp =>
      simp only [step, secretResponseUpdate]
      rw [applyFinally_errors]
      split
      · exact ih
      · rfl
    | responseStart => rfl
    | clientTool n p => simpa [step] using ih
    | threadChange => simpa [step] using ih

theorem parseBodyOrEmpty_empty_of (raw : String)
    (h : raw = "" ∨ parseJson raw = none ∨ parseJson raw = some (.obj [])) :
    parseBodyOrEmpty raw = .obj [] := by
  unfold parseBodyOrEmpty
  rcases h with h | h | h
  · simp [h]
  · by_cases hb : raw = ""
    · simp [hb]
    · simp [hb, h]
  · by_cases hb : raw = ""
    · simp [hb]
    · simp [hb, h]

/-! ### Claims -/

/-- Claim C1: for every non-2xx response to the session-bootstrap call on
a configured workflow, getClientSecret rejects with the message obtained
by trying the ordered list of extraction strategies on the parsed JSON
body and returning the first successful match, otherwise the HTTP status
text; in particular the nested error-message body yields quota exceeded
and the details-error body yields bad workflow. -/
theorem getClientSecret_non2xx_failure_detail :
    (∀ (workflowId : String) (hasCurrentSecret : Bool) (resp : HttpResponse) (s : PanelState),
        isWorkflowConfigured workflowId = true →
        responseOk resp.status = false →
        (getClientSecret workflowId hasCurrentSecret resp s).result =
          .failure (extractErrorDetailSpec (some (parseBodyOrEmpty resp.body)) resp.statusText))
    ∧ (∀ (hasCurrentSecret : Bool) (s : PanelState),
        (getClientSecret "wf_demo" hasCurrentSecret
            { status := 500, statusText := "Internal Server Error", body := quotaBody }
            s).result =
          .failure "quota exceeded")
    ∧ (∀ (hasCurrentSecret : Bool) (s : PanelState),
        (getClientSecret "wf_demo" hasCurrentSecret
            { status := 400, statusText := "Bad Request", body := badWorkflowBody } s).result =
          .failure "bad workflow") := by
  refine ⟨?_, ?_, ?_⟩
  · intro workflowId hasCurrentSecret resp s hcfg hok
    rw [← extractErrorDetail_eq_spec]
    simp [getClientSecret, hcfg, secretResultOf, hok]
  · intro hasCurrentSecret s
    rfl
  · intro hasCurrentSecret s
    rfl

/-- Witness for C1 at a concrete non-2xx response. -/
theorem getClientSecret_non2xx_failure_detail_witness :
    (getClientSecret "wf_demo" false
        { status := 500, statusText := "Internal Server Error", body := quotaBody }
        (initialPanelState true)).result =
      .failure (extractErrorDetailSpec (some (parseBodyOrEmpty quotaBody))
        "Internal Server Error") :=
  getClientSecret_non2xx_failure_detail.1 "wf_demo" false
    { status := 500, statusText := "Internal Server Error", body := quotaBody }
    (initialPanelState true) rfl rfl

/-- Counterexample to claim C2 as stated: a 2xx response whose JSON body
contains a client_secret field holding the empty string does not resolve
to that string value; the empty string is falsy, so the call rejects with
the missing-credential message. -/
theorem getClientSecret_empty_string_secret_fails :
    getMember (parseBodyOrEmpty emptySecretBody) "client_secret" = some (.str "") ∧
    responseOk 200 = true ∧
    (getClientSecret "wf_demo" false
        { status := 200, statusText := "OK", body := emptySecretBody }
        (initialPanelState true)).result = .failure missingSecretMessage ∧
    (getClientSecret "wf_demo" false
        { status := 200, statusText := "OK", body := emptySecretBody }
        (initialPanelState true)).result ≠ .success (.str "") := by
  refine ⟨rfl, rfl, rfl, ?_⟩
  intro h
  rw [show (getClientSecret "wf_demo" false
      { status := 200, statusText := "OK", body := emptySecretBody }
      (initialPanelState true)).result = .failure missingSecretMessage from rfl] at h
  exact SecretResult.noConfusion h

/-- Claim C2 (amended: the client_secret field must hold a non-empty
string, the source rejects a falsy credential): for every 2xx response
whose JSON body carries a client_secret field with a non-empty string
value, getClientSecret resolves to that value; in particular the sk_abc
body resolves to sk_abc. -/
theorem getClientSecret_success_secret :
    (∀ (workflowId : String) (hasCurrentSecret : Bool) (resp : HttpResponse) (s : PanelState)
        (sec : String),
        isWorkflowConfigured workflowId = true →
        responseOk resp.status = true →
        getMember (parseBodyOrEmpty resp.body) "client_secret" = some (.str sec) →
        sec ≠ "" →
        (getClientSecret workflowId hasCurrentSecret resp s).result = .success (.str sec))
    ∧ (∀ (hasCurrentSecret : Bool) (s : PanelState),
        (getClientSecret "wf_demo" hasCurrentSecret
            { status := 200, statusText := "OK", body := secretBody } s).result =
          .success (.str "sk_abc")) := by
  constructor
  · intro workflowId hasCurrentSecret resp s sec hcfg hok hfield hsec
    simp [getClientSecret, hcfg, secretResultOf, hok, hfield, jsTruthy, hsec]
  · intro hasCurrentSecret s
    rfl

/-- Witness for C2 at the concrete credential body. -/
theorem getClientSecret_success_secret_witness :
    (getClientSecret "wf_demo" false { status := 200, statusText := "OK", body := secretBody }
        (initialPanelState true)).result = .success (.str "sk_abc") :=
  getClientSecret_success_secret.1 "wf_demo" false
    { status := 200, statusText := "OK", body := secretBody }
    (initialPanelState true) "sk_abc" rfl rfl rfl (by decide)

/-- Claim C3: for every 2xx response whose body is an empty JSON object,
the empty string, or text that fails to parse as JSON, getClientSecret
rejects with the fixed missing-credential message; the parse failure is
caught and degrades to an empty payload rather than crashing. -/
theorem getClientSecret_missing_secret_failure :
    ∀ (workflowId : String) (hasCurrentSecret : Bool) (resp : HttpResponse) (s : PanelState),
      isWorkflowConfigured workflowId = true →
      responseOk resp.status = true →
      (resp.body = "" ∨ parseJson resp.body = none ∨ parseJson resp.body = some (.obj [])) →
      (getClientSecret workflowId hasCurrentSecret resp s).result =
        .failure missingSecretMessage := by
  intro workflowId hasCurrentSecret resp s hcfg hok hbody
  simp [getClientSecret, hcfg, secretResultOf, hok, parseBodyOrEmpty_empty_of resp.body hbody,
    getMember, lookupField]

/-- Witness for C3 at the three concrete body shapes: an empty body, an
unparseable body, and an empty JSON object body. -/
theorem getClientSecret_missing_secret_failure_witness :
    ((getClientSecret "wf_demo" false { status := 200, statusText := "OK", body := "" }
        (initialPanelState true)).result = .failure missingSecretMessage) ∧
    ((getClientSecret "wf_demo" false { status := 200, statusText := "OK", body := "not json" }
        (initialPanelState true)).result = .failure missingSecretMessage) ∧
    ((getClientSecret "wf_demo" false
        { status := 200, statusText := "OK", body := "\x7b\x7d" }
        (initialPanelState true)).result = .failure missingSecretMessage) :=
  ⟨getClientSecret_missing_secret_failure "wf_demo" false
      { status := 200, statusText := "OK", body := "" } (initialPanelState true)
      rfl rfl (Or.inl rfl),
   getClientSecret_missing_secret_failure "wf_demo" false
      { status := 200, statusText := "OK", body := "not json" } (initialPanelState true)
      rfl rfl (Or.inr (Or.inl rfl)),
   getClientSecret_missing_secret_failure "wf_demo" false
      { status := 200, statusText := "OK", body := "\x7b\x7d" } (initialPanelState true)
      rfl rfl (Or.inr (Or.inr rfl))⟩

/-- Claim C4: when the configured workflow identifier is empty or starts
with the placeholder literal wf_replace, getClientSecret throws without
performing any fetch, and the session error is set at once to the fixed
configuration message with the retryable flag false (and the loader
cleared). -/
theorem getClientSecret_unconfigured_no_fetch :
    ∀ (workflowId : String),
      (workflowId = "" ∨ strStartsWith workflowId "wf_replace" = true) →
      ∀ (hasCurrentSecret : Bool) (resp : HttpResponse) (s : PanelState),
        (getClientSecret workflowId hasCurrentSecret resp s).fetchPerformed = false ∧
        (getClientSecret workflowId hasCurrentSecret resp s).result =
          .failure workflowConfigMessage ∧
        (getClientSecret workflowId hasCurrentSecret resp s).finalState.errors.session =
          some workflowConfigMessage ∧
        (getClientSecret workflowId hasCurrentSecret resp s).finalState.errors.retryable =
          false ∧
        (getClientSecret workflowId hasCurrentSecret resp s).finalState.isInitializingSession =
          false := by
  intro workflowId h hasCurrentSecret resp s
  have hcfg : isWorkflowConfigured workflowId = false := by
    rcases h with h | h
    · simp [isWorkflowConfigured, h]
    · simp [isWorkflowConfigured, h]
  simp [getClientSecret, hcfg, setUnconfiguredSessionError]

/-- Witness for C4 at the placeholder workflow identifier. -/
theorem getClientSecret_unconfigured_no_fetch_witness :
    (getClientSecret "wf_replace_me" false { status := 200, statusText := "OK", body := "" }
        (initialPanelState true)).fetchPerformed = false ∧
    (getClientSecret "wf_replace_me" false { status := 200, statusText := "OK", body := "" }
        (initialPanelState true)).result = .failure workflowConfigMessage ∧
    (getClientSecret "wf_replace_me" false { status := 200, statusText := "OK", body := "" }
        (initialPanelState true)).finalState.errors.session = some workflowConfigMessage ∧
    (getClientSecret "wf_replace_me" false { status := 200, statusText := "OK", body := "" }
        (initialPanelState true)).finalState.errors.retryable = false ∧
    (getClientSecret "wf_replace_me" false { status := 200, statusText := "OK", body := "" }
        (initialPanelState true)).finalState.isInitializingSession = false :=
  getClientSecret_unconfigured_no_fetch "wf_replace_me" (Or.inr rfl) false
    { status := 200, statusText := "OK", body := "" } (initialPanelState true)

/-- Claim C5: a record_fact invocation relays at most one widget action
per fact identifier and thread: an identifier already in the processed
set is never relayed; the first invocation with a non-empty identifier
relays exactly one action and records the identifier; a repeat in the
same thread relays nothing and leaves the set unchanged; after a
thread-change clears the set the same identifier is relayed again. -/
theorem recordFact_dedup_per_thread :
    (∀ (processed : List String) (id text : String),
        processed.contains id = true →
        (onClientTool processed "record_fact"
            [("fact_id", .str id), ("fact_text", .str text)]).widgetAction = none)
    ∧ (∀ (id text text2 : String) (processed : List String),
        id ≠ "" →
        processed.contains id = false →
        (onClientTool processed "record_fact"
            [("fact_id", .str id), ("fact_text", .str text)]).widgetAction =
          some { type := "save", factId := id, factText := normalizeFactText text } ∧
        (onClientTool processed "record_fact"
            [("fact_id", .str id), ("fact_text", .str text)]).processedFacts =
          id :: processed ∧
        (onClientTool (id :: processed) "record_fact"
            [("fact_id", .str id), ("fact_text", .str text2)]).widgetAction = none ∧
        (onClientTool (id :: processed) "record_fact"
            [("fact_id", .str id), ("fact_text", .str text2)]).processedFacts =
          id :: processed ∧
        (onClientTool (onThreadChange (id :: processed)) "record_fact"
            [("fact_id", .str id), ("fact_text", .str text)]).widgetAction =
          some { type := "save", factId := id, factText := normalizeFactText text }) := by
  constructor
  · intro processed id text hmem
    have hmem2 : id ∈ processed := by simpa using hmem
    simp [onClientTool, lookupField, jsParamString, jsToString, hmem2]
  · intro id text text2 processed hid hmem
    have hmem2 : id ∉ processed := by simpa using hmem
    refine ⟨?_, ?_, ?_, ?_, ?_⟩
    · simp [onClientTool, lookupField, jsParamString, jsToString, hid, hmem2]
    · simp [onClientTool, lookupField, jsParamString, jsToString, hid, hmem2]
    · simp [onClientTool, lookupField, jsParamString, jsToString]
    · simp [onClientTool, lookupField, jsParamString, jsToString]
    · simp [onClientTool, onThreadChange, lookupField, jsParamString, jsToString, hid]

/-- Witness for C5 at a concrete identifier and texts. -/
theorem recordFact_dedup_per_thread_witness :
    (onClientTool [] "record_fact"
        [("fact_id", .str "f1"), ("fact_text", .str "a  b")]).widgetAction =
      some { type := "save", factId := "f1", factText := normalizeFactText "a  b" } ∧
    (onClientTool [] "record_fact"
        [("fact_id", .str "f1"), ("fact_text", .str "a  b")]).processedFacts = ["f1"] ∧
    (onClientTool ["f1"] "record_fact"
        [("fact_id", .str "f1"), ("fact_text", .str "c")]).widgetAction = none ∧
    (onClientTool ["f1"] "record_fact"
        [("fact_id", .str "f1"), ("fact_text", .str "c")]).processedFacts = ["f1"] ∧
    (onClientTool (onThreadChange ["f1"]) "record_fact"
        [("fact_id", .str "f1"), ("fact_text", .str "a  b")]).widgetAction =
      some { type := "save", factId := "f1", factText := normalizeFactText "a  b" } :=
  recordFact_dedup_per_thread.2 "f1" "a  b" "c" [] (by decide) rfl

/-- Claim C6: exactly one error message is surfaced as the blocking
error, in fixed priority order: the script error when present, otherwise
the session error when present, otherwise the integration error. -/
theorem blockingError_priority :
    ∀ (e : ErrorState),
      (∀ m, e.script = some m → blockingError e = some m) ∧
      (e.script = none → ∀ m, e.session = some m → blockingError e = some m) ∧
      (e.script = none → e.session = none → blockingError e = e.integration) := by
  intro e
  refine ⟨?_, ?_, ?_⟩
  · intro m h
    simp [blockingError, h]
  · intro hs m h
    simp [blockingError, activeError, hs, h]
  · intro hs hsess
    simp [blockingError, activeError, hs, hsess]

/-- Witness for C6 at a state with all three errors set. -/
theorem blockingError_priority_witness :
    blockingError
        { script := some "s", session := some "t", integration := some "u", retryable := false } =
      some "s" :=
  (blockingError_priority
    { script := some "s", session := some "t", integration := some "u", retryable := false }).1
    "s" rfl

/-- Claim C7: when the five-second timeout fires with the custom element
still unregistered and the script still pending, the script-error state
becomes active carrying the fixed diagnostic detail (stored by the
handler with its Error: prefix) and the loading indicator clears; a load
signal makes the script ready, and readiness is sticky under every event
other than a user reset. -/
theorem scriptTimeout_and_ready_sticky :
    (∀ s : PanelState, s.scriptStatus = .pending →
        (step s (.scriptTimeout false)).scriptStatus = .error ∧
        (step s (.scriptTimeout false)).errors.script =
          some ("Error: " ++ scriptTimeoutDetail) ∧
        (step s (.scriptTimeout false)).isInitializingSession = false)
    ∧ (∀ s : PanelState, (step s .scriptLoaded).scriptStatus = .ready)
    ∧ (∀ (s : PanelState) (e : PanelEvent), s.scriptStatus = .ready →
        (∀ r, e ≠ .resetChat r) → (step s e).scriptStatus = .ready) := by
  refine ⟨?_, ?_, ?_⟩
  · intro s h
    simp [step, h, handleError]
  · intro s
    rfl
  · intro s e h hne
    cases e with
    | scriptLoaded => rfl
    | scriptTimeout r => simp [step, h]
    | workflowUnconfigured => simpa [step, setUnconfiguredSessionError] using h
    | resetChat r => exact absurd rfl (hne r)
    | secretUnconfigured => simpa [step, setUnconfiguredSessionError] using h
    | secretStart b => simpa [step, secretRequestStart] using h
    | secretSettled b resp =>
      have hs : ∀ t : PanelState, (applyFinally b t).scriptStatus = t.scriptStatus := by
        intro t
        cases b <;> rfl
      simp only [step, secretResponseUpdate, hs]
      split <;> simpa using h
    | responseStart => simpa [step] using h
    | clientTool n p => simpa [step] using h
    | threadChange => simpa [step] using h

/-- Witness for C7: the timeout on a pending fresh mount, and stickiness
of readiness under a settled fetch. -/
theorem scriptTimeout_and_ready_sticky_witness :
    ((step (initialPanelState false) (.scriptTimeout false)).scriptStatus = .error ∧
      (step (initialPanelState false) (.scriptTimeout false)).errors.script =
        some ("Error: " ++ scriptTimeoutDetail) ∧
      (step (initialPanelState false) (.scriptTimeout false)).isInitializingSession = false) ∧
    (step (initialPanelState true) .responseStart).scriptStatus = .ready :=
  ⟨scriptTimeout_and_ready_sticky.1 (initialPanelState false) rfl,
   scriptTimeout_and_ready_sticky.2.2 (initialPanelState true) .responseStart rfl
     (fun _r h => PanelEvent.noConfusion h)⟩

/-- Claim C8: the reset action performs one fixed state change whatever
error triggered it: it clears the fact-dedup set, resets all four error
fields to their initial values, sets the loading flag, recomputes script
readiness from the element registration, and remounts the widget by
incrementing the instance key. -/
theorem handleResetChat_state :
    ∀ (elementRegistered : Bool) (s : PanelState),
      step s (.resetChat elementRegistered) =
        { errors := createInitialErrors,
          isInitializingSession := true,
          scriptStatus := if elementRegistered then .ready else .pending,
          widgetInstanceKey := s.widgetInstanceKey + 1,
          processedFacts := [] } := by
  intro elementRegistered s
  rfl

/-- Claim C9: in every reachable state of the panel the retryable flag is
false - the initial state clears it and every error-setting update keeps
it false - so the retry affordance handed to the error overlay is never
attached. -/
theorem retryable_always_false_and_no_retry :
    ∀ s : PanelState, ReachablePanel s →
      s.errors.retryable = false ∧ onRetryAttached s = false := by
  intro s h
  have hr := retryable_false_of_reachable h
  exact ⟨hr, by simp [onRetryAttached, hr]⟩

/-- Witness for C9 at the initial state of a fresh mount. -/
theorem retryable_always_false_and_no_retry_witness :
    (initialPanelState true).errors.retryable = false ∧
      onRetryAttached (initialPanelState true) = false :=
  retryable_always_false_and_no_retry (initialPanelState true) (ReachablePanel.init true)

/-- Claim C10: the two ChatKitPanel source variants implement
extensionally equal behavioral logic: their extractErrorDetail,
getClientSecret, onClientTool, onThreadChange, handleResetChat and
error-precedence computations agree on every input. -/
theorem variants_extensionally_equal :
    (∀ (payload : Option JsonValue) (fallback : String),
        Variant1.extractErrorDetail payload fallback = extractErrorDetail payload fallback)
    ∧ (∀ (workflowId : String) (hasCurrentSecret : Bool) (resp : HttpResponse) (s : PanelState),
        Variant1.getClientSecret workflowId hasCurrentSecret resp s =
          getClientSecret workflowId hasCurrentSecret resp s)
    ∧ (∀ (processedFacts : List String) (name : String) (params : List (String × JsonValue)),
        Variant1.onClientTool processedFacts name params =
          onClientTool processedFacts name params)
    ∧ (∀ processedFacts : List String,
        Variant1.onThreadChange processedFacts = onThreadChange processedFacts)
    ∧ (∀ (elementRegistered : Bool) (s : PanelState),
        Variant1.handleResetChat elementRegistered s = handleResetChat elementRegistered s)
    ∧ (∀ e : ErrorState, Variant1.activeError e = activeError e)
    ∧ (∀ e : ErrorState, Variant1.blockingError e = blockingError e) :=
  ⟨fun _ _ => rfl, fun _ _ _ _ => rfl, fun _ _ _ => rfl, fun _ => rfl, fun _ _ => rfl,
   fun _ => rfl, fun _ => rfl⟩
